import Mathlib

/-!
Verification of the deepfake-detection dashboard server against its
specification.

The embedding models the Express route handlers in `server.js` and the
extended server copy in `src/components/NotificationCenter.tsx`, together
with `DatabaseService` in `database.js`.  SQL queries over the
`deepfake_media` table are modelled as pure functions over an explicit list
of rows:

* `WHERE` clauses become Boolean filters (`List.filter`), with SQL
  three-valued logic for `NULL` columns: a comparison against `NULL` is
  not-true, so the row is excluded;
* `ORDER BY` becomes `List.insertionSort` with the corresponding ordering
  relation;
* `LIMIT l OFFSET o` becomes `(·.drop o).take l`;
* `COUNT(*)` becomes `List.length` of the filtered list;
* `GROUP BY DATE(detected_date)` becomes grouping by the calendar-day index
  of the timestamp.

Timestamps are integers (epoch milliseconds).  Confidence scores are the
table's `DECIMAL` fixed-point values scaled to integers (4 decimal places,
so scores live in `0 .. 10000` and the JS literal `0.9` is `9000`);
comparisons are order-isomorphic to the decimal values.  JS strings are
`List Char`.  Nullable columns are `Option`s.  Row columns never touched by
any modelled query (`media_url`, `thumbnail_url`, metadata fields) are
omitted from the row structure.

For the spike evaluator the JS `number` arithmetic
(`avg = sum/m`, `today > avg * 1.5`, `Math.round`) is embedded over the
integers as its exact-rational semantics, cross-multiplying with the
positive denominators: `today > (sum/m) * 1.5  ↔  3*sum < 2*m*today`, and
`Math.round (p/q) = ⌊p/q + 1/2⌋ = (2*p + q) / (2*q)` in integer division
for `p ≥ 0, q > 0`.  The spike comparison itself agrees with the JS double
comparison on the counts at hand; the rounded `percentIncrease`, however,
is the exact round-half-up value, which can differ by one from the JS
double computation `Math.round(((T - avg) / avg) * 100)` when the double
quotient lands just under a half (e.g. today 63 over history `[40, 40]`:
the doubles give `57.49999999999999 → 57`, the exact value is `57.5 → 58`).
The statements proved below evaluate `percentIncrease` only at
float-exact instances, where the two coincide.  The JS value `Infinity`
(division by an exact zero average, which the JSON serialisation turns
into `null`) is `Option.none`.
-/

/-- Milliseconds per day, for `DATE_SUB(NOW(), INTERVAL n DAY)` arithmetic
and for the calendar-day index of a timestamp. -/
def msPerDay : Int := 86400000

/-- Calendar-day index of a timestamp: models SQL `DATE(detected_date)`
(floor division, so the day boundary is respected for dates before the
epoch as well). -/
def dayOf (t : Int) : Int := Int.fdiv t msPerDay

/-- A value of the `media_type` enum column (`'photo' | 'video'`). -/
inductive MediaKind where
  | photo
  | video
deriving DecidableEq

/-- The validated `mediaType` request parameter
(`Joi.string().valid('photo', 'video', 'all')`). -/
inductive KindFilter where
  | photo
  | video
  | all
deriving DecidableEq

/-- A row of the `deepfake_media` table (columns used by the modelled
queries; `NULL`able columns are `Option`s). -/
structure MediaRow where
  id : Nat
  media_type : MediaKind
  title : Option (List Char)
  description : Option (List Char)
  tags : Option (List Char)
  confidence_score : Option Int
  source_platform : Option (List Char)
  detected_date : Int
  is_verified : Bool
deriving DecidableEq

/-- SQL `media_type = ?` for a validated `mediaType` parameter: the
handlers add the predicate only when `mediaType !== 'all'`. -/
def kindMatch : KindFilter → MediaKind → Bool
  | .all, _ => true
  | .photo, k => decide (k = .photo)
  | .video, k => decide (k = .video)

/-- SQL `detected_date BETWEEN ? AND ?` (inclusive bounds). -/
def sqlBetween (d s e : Int) : Bool := decide (s ≤ d) && decide (d ≤ e)

/-- SQL `confidence_score >= ?` under three-valued logic: a `NULL` score
compares to not-true, so the row is excluded. -/
def confGeB : Option Int → Int → Bool
  | none, _ => false
  | some c, m => decide (m ≤ c)

/-- Strict order on nullable confidence scores as `ORDER BY confidence_score
DESC` sorts them: `NULL` sorts below every non-`NULL` value. -/
def confLtB : Option Int → Option Int → Bool
  | none, none => false
  | none, some _ => true
  | some _, none => false
  | some a, some b => decide (a < b)

/-- The ordering relation of `ORDER BY detected_date DESC,
confidence_score DESC`: `dateOrd a b` holds when `b` may come after `a`. -/
def dateOrd (a b : MediaRow) : Prop :=
  b.detected_date < a.detected_date ∨
    (b.detected_date = a.detected_date ∧
      (confLtB b.confidence_score a.confidence_score = true ∨
        b.confidence_score = a.confidence_score))

instance : DecidableRel dateOrd := fun a b =>
  inferInstanceAs (Decidable (_ ∨ _))

/-- The ordering relation of `ORDER BY confidence_score DESC,
detected_date DESC` (rankings, search): `confOrd a b` holds when `b` may
come after `a`. -/
def confOrd (a b : MediaRow) : Prop :=
  confLtB b.confidence_score a.confidence_score = true ∨
    (b.confidence_score = a.confidence_score ∧
      b.detected_date ≤ a.detected_date)

instance : DecidableRel confOrd := fun a b =>
  inferInstanceAs (Decidable (_ ∨ _))

/-- SQL `LIMIT limit OFFSET offset`. -/
def paginate (limit offset : Nat) (l : List MediaRow) : List MediaRow :=
  (l.drop offset).take limit

/-- The spike payload of `/api/alerts/check` (`spikeInfo`).
`percentIncrease` is `none` when the JS computation produces the non-finite
`Infinity` (exact zero average), which `res.json` serialises as `null`. -/
structure SpikeInfo where
  todayCount : Nat
  avgCount : Nat
  percentIncrease : Option Nat
deriving DecidableEq

/-- The spike evaluation of `/api/alerts/check`
(`NotificationCenter.tsx` lines 801-817), on the per-day counts of the
`dailyStats` rows in date-descending order (most recent day first):

```
let spikeDetected = false; let spikeInfo = null;
if (dailyStats.length > 1) {
  const todayCount = dailyStats[0].count;
  const avgCount = dailyStats.slice(1).reduce((s, x) => s + x.count, 0)
                   / (dailyStats.length - 1);
  if (todayCount > avgCount * 1.5) {
    spikeDetected = true;
    spikeInfo = { todayCount, avgCount: Math.round(avgCount),
      percentIncrease: Math.round(((todayCount - avgCount) / avgCount) * 100) };
  }
}
```

With `S` the history sum and `m = dailyStats.length - 1 ≥ 1`:
`todayCount > (S/m) * 1.5  ↔  3*S < 2*m*todayCount`;
`Math.round (S/m) = (2*S + m) / (2*m)` in integer division; and
`percentIncrease = Math.round (100*(todayCount - S/m) / (S/m))
= Math.round (100*(m*todayCount - S) / S)
= (200*(m*todayCount - S) + S) / (2*S)` when `S > 0`
(inside the spike branch `m*todayCount - S > 0`), while `S = 0` makes the
JS quotient `Infinity` (`none`).  The two rounded fields are the exact
round-half-up values; the JS doubles can round `percentIncrease` one lower
when the double quotient falls just short of a half (see the header note),
so statements about `percentIncrease` are evaluated only at float-exact
inputs. -/
def checkSpike : List Nat → Bool × Option SpikeInfo
  | today :: rest@(_ :: _) =>
    let S := rest.sum
    let m := rest.length
    if 3 * S < 2 * m * today then
      (true,
        some
          { todayCount := today
            avgCount := (2 * S + m) / (2 * m)
            percentIncrease :=
              if S = 0 then none
              else some ((200 * (m * today - S) + S) / (2 * S)) })
    else (false, none)
  | _ => (false, none)

/-- Relation sorting the grouped days date-descending (`ORDER BY date
DESC`). -/
def dayDescOrd (a b : Int) : Prop := b ≤ a

instance : DecidableRel dayDescOrd := fun a b =>
  inferInstanceAs (Decidable (b ≤ a))

/-- The `dailyStats` grouping query of `/api/alerts/check`:

```
SELECT DATE(detected_date) as date, COUNT(*) as count
FROM deepfake_media
WHERE detected_date >= DATE_SUB(NOW(), INTERVAL 7 DAYS)
GROUP BY DATE(detected_date)
ORDER BY date DESC
```

returning `(day, count)` pairs, one per day present among the rows of the
trailing window, most recent day first.

This is the grouping the query text describes; it is what the evaluator's
input would be had the statement parsed.  The deployed text does not:
`INTERVAL 7 DAYS` is a MySQL/MariaDB syntax error (interval units are
singular — the alerts query just above correctly writes
`INTERVAL 24 HOUR`), so the real `pool.execute` rejects on every call.
`dailyStatsExecute` and `alertsCheckHandler` below model that actual
execution path. -/
def dailyCounts (rows : List MediaRow) (now : Int) : List (Int × Nat) :=
  let recent := rows.filter fun r => decide (now - 7 * msPerDay ≤ r.detected_date)
  let days := (recent.map fun r => dayOf r.detected_date).dedup
  (List.insertionSort dayDescOrd days).map fun d =>
    (d, recent.countP fun r => decide (dayOf r.detected_date = d))

/-- JS `platforms.split(',')` on a comma-separated platform list. -/
def splitOnComma : List Char → List (List Char)
  | [] => [[]]
  | c :: rest =>
    match splitOnComma rest with
    | [] => [[c]]
    | g :: gs => if c = ',' then [] :: g :: gs else (c :: g) :: gs

/-- Validated query parameters of `/api/alerts/check`
(`minConfidence` defaults to `0.9`, i.e. `9000` in the scaled fixed-point). -/
structure AlertsParams where
  minConfidence : Int
  lastCheckTime : Option Int
  platforms : Option (List Char)
  verifiedOnly : Option Bool

/-- The `WHERE` clause of the alert query of `/api/alerts/check`
(`NotificationCenter.tsx` lines 757-783):
`confidence_score >= ?`, then `detected_date > ?` for a supplied
`lastCheckTime` or `detected_date > DATE_SUB(NOW(), INTERVAL 24 HOUR)`
otherwise, then `source_platform IN (...)` when a platform list is supplied
(`NULL` platform excluded), then `is_verified = 1` when `verifiedOnly` is
truthy. -/
def alertsFilter (p : AlertsParams) (now : Int) (r : MediaRow) : Bool :=
  confGeB r.confidence_score p.minConfidence &&
  (match p.lastCheckTime with
   | some t => decide (t < r.detected_date)
   | none => decide (now - msPerDay < r.detected_date)) &&
  (match p.platforms with
   | some ps =>
     (match r.source_platform with
      | some sp => decide (sp ∈ splitOnComma ps)
      | none => false)
   | none => true) &&
  (match p.verifiedOnly with
   | some true => r.is_verified
   | _ => true)

/-- The alert rows of `/api/alerts/check`:
`ORDER BY detected_date DESC, confidence_score DESC LIMIT 50` over the
filtered rows. -/
def alertsList (p : AlertsParams) (rows : List MediaRow) (now : Int) :
    List MediaRow :=
  (List.insertionSort dateOrd (rows.filter (alertsFilter p now))).take 50

/-- The JSON response body of `/api/alerts/check`. -/
structure AlertsCheckResult where
  alerts : List MediaRow
  totalAlerts : Nat
  spikeDetected : Bool
  spikeInfo : Option SpikeInfo
  checkTime : Int

/-- The intended `/api/alerts/check` response: alert selection, then spike
evaluation over the grouped daily counts, then the body
`{ alerts, totalAlerts, spikeDetected, spikeInfo, checkTime }` (`checkTime`
is the evaluation instant, returned on every non-error path).  This is the
handler's logic past the daily-stats `await`; the deployed handler never
reaches it, because that `await` throws on the unparseable daily-stats
statement — `alertsCheckHandler` below models the real control flow with
its `catch` branch. -/
def alertsCheck (p : AlertsParams) (rows : List MediaRow) (now : Int) :
    AlertsCheckResult where
  alerts := alertsList p rows now
  totalAlerts := (alertsList p rows now).length
  spikeDetected := (checkSpike ((dailyCounts rows now).map Prod.snd)).1
  spikeInfo := (checkSpike ((dailyCounts rows now).map Prod.snd)).2
  checkTime := now

/-- The daily-stats `pool.execute` of `/api/alerts/check`
(`NotificationCenter.tsx` line 790-799).  Its statement text reads
`DATE_SUB(NOW(), INTERVAL 7 DAYS)`; MySQL and MariaDB accept only the
singular interval unit `DAY`, so the statement is a syntax error and the
promise rejects on every call, independent of the data and the clock. -/
def dailyStatsExecute (_rows : List MediaRow) (_now : Int) :
    Except (List Char) (List (Int × Nat)) :=
  .error ("ER_PARSE_ERROR near INTERVAL 7 DAYS".toList)

/-- The full `/api/alerts/check` handler with its `try`/`catch`
(`NotificationCenter.tsx` lines 741-831): the alerts query runs, the
daily-stats query then throws, control jumps to the `catch` branch, and
the caller receives the HTTP 500 body `{ error: 'Internal server error' }`
— the normal response is never built. -/
def alertsCheckHandler (p : AlertsParams) (rows : List MediaRow) (now : Int) :
    Except (List Char) AlertsCheckResult :=
  match dailyStatsExecute rows now with
  | .error _ => .error ("Internal server error".toList)
  | .ok stats =>
    .ok
      { alerts := alertsList p rows now
        totalAlerts := (alertsList p rows now).length
        spikeDetected := (checkSpike (stats.map Prod.snd)).1
        spikeInfo := (checkSpike (stats.map Prod.snd)).2
        checkTime := now }

/-- Validated query parameters of `/api/deepfakes` (the `dateRangeSchema`
fields after Joi validation and defaulting). -/
structure ListParams where
  startDate : Int
  endDate : Int
  mediaType : KindFilter
  limit : Nat
  offset : Nat
  minConfidence : Int
  platform : Option (List Char)
  verified : Option Bool

/-- The `WHERE` clause of the data query of `/api/deepfakes`
(`server.js` lines 76-102): `detected_date BETWEEN ? AND ?`,
`confidence_score >= ?` (always present), then `media_type = ?` when
`mediaType !== 'all'`, `source_platform = ?` when `platform` is supplied,
and `is_verified = ?` when `verified !== undefined`. -/
def deepfakesFilter (p : ListParams) (r : MediaRow) : Bool :=
  sqlBetween r.detected_date p.startDate p.endDate &&
  confGeB r.confidence_score p.minConfidence &&
  kindMatch p.mediaType r.media_type &&
  (match p.platform with
   | some pl => decide (r.source_platform = some pl)
   | none => true) &&
  (match p.verified with
   | some v => decide (r.is_verified = v)
   | none => true)

/-- The `WHERE` clause of the `COUNT(*)` query of `/api/deepfakes`
(`server.js` lines 110-131), assembled by its own conditional block in the
handler. -/
def deepfakesCountFilter (p : ListParams) (r : MediaRow) : Bool :=
  sqlBetween r.detected_date p.startDate p.endDate &&
  confGeB r.confidence_score p.minConfidence &&
  kindMatch p.mediaType r.media_type &&
  (match p.platform with
   | some pl => decide (r.source_platform = some pl)
   | none => true) &&
  (match p.verified with
   | some v => decide (r.is_verified = v)
   | none => true)

/-- The `pagination` object of the `/api/deepfakes` response. -/
structure Pagination where
  total : Nat
  limit : Nat
  offset : Nat
  hasMore : Bool
deriving DecidableEq

/-- The JSON response body of `/api/deepfakes`. -/
structure DeepfakesResponse where
  data : List MediaRow
  pagination : Pagination

/-- The `/api/deepfakes` handler after validation: data query with
`ORDER BY detected_date DESC, confidence_score DESC LIMIT ? OFFSET ?`,
count query, and the response with
`hasMore: offset + limit < total`. -/
def deepfakesResponse (p : ListParams) (rows : List MediaRow) :
    DeepfakesResponse where
  data :=
    paginate p.limit p.offset
      (List.insertionSort dateOrd (rows.filter (deepfakesFilter p)))
  pagination :=
    { total := (rows.filter (deepfakesCountFilter p)).length
      limit := p.limit
      offset := p.offset
      hasMore := decide (p.offset + p.limit <
        (rows.filter (deepfakesCountFilter p)).length) }

/-- The filter argument of `DatabaseService.getDeepfakeMedia`
(`database.js` lines 45-55): all fields optional, `mediaType` defaulting to
`'all'`, `limit`/`offset` to `100`/`0`, `minConfidence` to `0`. -/
structure DbFilters where
  startDate : Option Int
  endDate : Option Int
  mediaType : KindFilter
  limit : Nat
  offset : Nat
  minConfidence : Int
  platform : Option (List Char)
  verified : Option Bool

/-- The `WHERE` clause built by `DatabaseService.getDeepfakeMedia`
(`database.js` lines 57-92): starts from `WHERE 1=1`, adds
`detected_date BETWEEN ? AND ?` only when both dates are supplied, adds
`confidence_score >= ?` only when `minConfidence > 0`, then the same
`media_type`/`source_platform`/`is_verified` conditions as the endpoint. -/
def getDeepfakeMediaFilter (f : DbFilters) (r : MediaRow) : Bool :=
  (match f.startDate, f.endDate with
   | some s, some e => sqlBetween r.detected_date s e
   | _, _ => true) &&
  (if 0 < f.minConfidence then confGeB r.confidence_score f.minConfidence
   else true) &&
  kindMatch f.mediaType r.media_type &&
  (match f.platform with
   | some pl => decide (r.source_platform = some pl)
   | none => true) &&
  (match f.verified with
   | some v => decide (r.is_verified = v)
   | none => true)

/-- `DatabaseService.getDeepfakeMedia`: filtered rows with
`ORDER BY detected_date DESC, confidence_score DESC LIMIT ? OFFSET ?`. -/
def getDeepfakeMedia (f : DbFilters) (rows : List MediaRow) : List MediaRow :=
  paginate f.limit f.offset
    (List.insertionSort dateOrd (rows.filter (getDeepfakeMediaFilter f)))

/-- The `/api/deepfakes` parameters as a `getDeepfakeMedia` filter object
(both dates supplied, all other fields passed through). -/
def toDbFilters (p : ListParams) : DbFilters where
  startDate := some p.startDate
  endDate := some p.endDate
  mediaType := p.mediaType
  limit := p.limit
  offset := p.offset
  minConfidence := p.minConfidence
  platform := p.platform
  verified := p.verified

/-- Whether a nullable confidence score is a non-`NULL`, non-negative
value (the data-model invariant `confidenceScore ∈ [0,1]` gives this for
every real row). -/
def confNonNeg : Option Int → Bool
  | none => false
  | some c => decide (0 ≤ c)

/-- Validated query parameters of `/api/rankings`. -/
structure RankParams where
  startDate : Int
  endDate : Int
  mediaType : KindFilter
  limit : Nat

/-- The `WHERE` clause of `/api/rankings` (`server.js` lines 220-235):
`detected_date BETWEEN ? AND ?`, plus `media_type = ?` when
`mediaType !== 'all'`. -/
def rankingsFilter (p : RankParams) (r : MediaRow) : Bool :=
  sqlBetween r.detected_date p.startDate p.endDate &&
  kindMatch p.mediaType r.media_type

/-- A ranked row of the `/api/rankings` response (`ROW_NUMBER() OVER
(ORDER BY confidence_score DESC, detected_date DESC) as rank`). -/
structure RankedRow where
  row : MediaRow
  rank : Nat
deriving DecidableEq

/-- Assign `ROW_NUMBER()` values `n, n+1, ...` along a list already in the
window's order. -/
def rankWith : List MediaRow → Nat → List RankedRow
  | [], _ => []
  | r :: rest, n => ⟨r, n⟩ :: rankWith rest (n + 1)

/-- The `rankings` list of `/api/rankings`: rows filtered, ordered by
`confidence_score DESC, detected_date DESC`, numbered by `ROW_NUMBER()`
over that same ordering, and cut by `LIMIT ?`. -/
def rankingsList (p : RankParams) (rows : List MediaRow) : List RankedRow :=
  (rankWith (List.insertionSort confOrd (rows.filter (rankingsFilter p))) 1).take
    p.limit

/-- LIKE-pattern prefix test: does `needle` occur at the head of `hay`? -/
def charsAt : List Char → List Char → Bool
  | [], _ => true
  | _ :: _, [] => false
  | a :: as, b :: bs => a == b && charsAt as bs

/-- SQL `column LIKE '%needle%'`: substring containment.  The search
keyword is modelled as a literal substring; LIKE metacharacters occurring
inside the keyword itself (`%`, `_`) are not given their wildcard reading
— none of the properties proved here depend on a keyword containing
them. -/
def likeHas (needle : List Char) : List Char → Bool
  | [] => charsAt needle []
  | c :: rest => charsAt needle (c :: rest) || likeHas needle rest

/-- `column LIKE ?` on a nullable column: `NULL LIKE` is not-true. -/
def optLike (needle : List Char) : Option (List Char) → Bool
  | some s => likeHas needle s
  | none => false

/-- Validated query parameters of `/api/search`. -/
structure SearchParams where
  query : List Char
  startDate : Option Int
  endDate : Option Int
  mediaType : KindFilter
  minConfidence : Int
  platform : Option (List Char)
  verified : Option Bool
  limit : Nat

/-- The `WHERE` clause of `/api/search` (`NotificationCenter.tsx` lines
670-701): `(title LIKE ? OR description LIKE ? OR tags LIKE ?)` with the
`%query%` pattern, `confidence_score >= ?`, then
`detected_date BETWEEN ? AND ?` when both dates are supplied, and the
`media_type`/`source_platform`/`is_verified` conditions. -/
def searchFilter (p : SearchParams) (r : MediaRow) : Bool :=
  (optLike p.query r.title || optLike p.query r.description ||
    optLike p.query r.tags) &&
  confGeB r.confidence_score p.minConfidence &&
  (match p.startDate, p.endDate with
   | some s, some e => sqlBetween r.detected_date s e
   | _, _ => true) &&
  kindMatch p.mediaType r.media_type &&
  (match p.platform with
   | some pl => decide (r.source_platform = some pl)
   | none => true) &&
  (match p.verified with
   | some v => decide (r.is_verified = v)
   | none => true)

/-- The result rows of `/api/search`:
`ORDER BY confidence_score DESC, detected_date DESC LIMIT ?`. -/
def searchResults (p : SearchParams) (rows : List MediaRow) : List MediaRow :=
  (List.insertionSort confOrd (rows.filter (searchFilter p))).take p.limit

/-- The JSON response body of `/api/search`. -/
structure SearchResponse where
  results : List MediaRow
  query : List Char
  total : Nat
deriving DecidableEq

/-- The `/api/search` handler after validation: the response is
`{ results: rows, query, total: rows.length }` — `total` is the length of
the `LIMIT`-capped row list. -/
def searchResponse (p : SearchParams) (rows : List MediaRow) :
    SearchResponse where
  results := searchResults p rows
  query := p.query
  total := (searchResults p rows).length

/-- Escape embedded double quotes:
JS `stringValue.replace(/"/g, '""')` in `convertToCSV`. -/
def escQuotes : List Char → List Char
  | [] => []
  | c :: rest => if c = '"' then '"' :: '"' :: escQuotes rest else c :: escQuotes rest

/-- Whether `convertToCSV` must quote a field:
`stringValue.includes(',') || stringValue.includes('"') ||
stringValue.includes('\n')`. -/
def needsQuoting (s : List Char) : Bool :=
  s.contains ',' || s.contains '"' || s.contains '\n'

/-- One CSV field as emitted by `convertToCSV` (`server.js` lines 300-308):
`null`/`undefined` become the empty field; a value containing a comma,
double quote or newline is wrapped in double quotes with embedded quotes
doubled; anything else is emitted verbatim. -/
def csvField : Option (List Char) → List Char
  | none => []
  | some s =>
    if needsQuoting s then '"' :: (escQuotes s ++ ['"']) else s

/-- One CSV data row of `convertToCSV`: the selected field values joined
with commas. -/
def csvRow (fields : List (Option (List Char))) : List Char :=
  List.intercalate [','] (fields.map csvField)

/-- `convertToCSV` over a header row and data rows: header names joined by
commas, then one line per row, lines joined with `'\n'` (empty input gives
the empty string). -/
def convertToCSV (headers : List (List Char))
    (rows : List (List (Option (List Char)))) : List Char :=
  match rows with
  | [] => []
  | _ =>
    List.intercalate ['\n'] (List.intercalate [','] headers :: rows.map csvRow)

/-- Collapse doubled double quotes: the inverse step a CSV reader applies
inside a quoted field. -/
def unescQuotes : List Char → List Char
  | [] => []
  | [c] => [c]
  | c :: d :: rest =>
    if c = '"' ∧ d = '"' then '"' :: unescQuotes rest
    else c :: unescQuotes (d :: rest)

/-- Re-parse one CSV field: a field wrapped in double quotes is unwrapped
and its doubled quotes collapsed; any other field is read verbatim. -/
def parseCSVField (s : List Char) : List Char :=
  if 2 ≤ s.length ∧ s.head? = some '"' ∧ s.getLast? = some '"' then
    unescQuotes (s.drop 1).dropLast
  else s

/-- A raw (pre-validation) query string for the date-range endpoints:
`none` marks a missing (or unparseable) parameter. -/
structure RawListQuery where
  startDate : Option Int
  endDate : Option Int
  mediaType : Option (List Char)
  limit : Option Int
  offset : Option Int
  minConfidence : Option Int
  platform : Option (List Char)
  verified : Option Bool

/-- Joi `Joi.string().valid('photo', 'video', 'all').default('all')`. -/
def parseKindFilter : Option (List Char) → Option KindFilter
  | none => some .all
  | some s =>
    if s = ("photo".toList) then some .photo
    else if s = ("video".toList) then some .video
    else if s = ("all".toList) then some .all
    else none

/-- Joi numeric field with `min`/`max` bounds and a default. -/
def intRange (v : Option Int) (lo hi dflt : Int) (msg : List Char) :
    Except (List Char) Int :=
  match v with
  | none => .ok dflt
  | some x => if lo ≤ x ∧ x ≤ hi then .ok x else .error msg

/-- The `dateRangeSchema` validation (`server.js` lines 45-54): required
ISO `startDate`; required ISO `endDate` with `min(Joi.ref('startDate'))`;
`mediaType ∈ {photo, video, all}` defaulting to `all`; integer `limit` in
`1..1000` defaulting to `100`; integer `offset ≥ 0` defaulting to `0`;
`minConfidence` in `[0,1]` (scaled: `0..10000`) defaulting to `0`;
optional `platform` and `verified`.  Joi aborts at the first failing field
(key order), returning a field-specific message; the handler then returns
HTTP 400 without running any query. -/
def dateRangeValidate (q : RawListQuery) : Except (List Char) ListParams :=
  match q.startDate with
  | none => .error ("startDate is required".toList)
  | some s =>
  match q.endDate with
  | none => .error ("endDate is required".toList)
  | some e =>
  if e < s then
    .error ("endDate must be greater than or equal to ref:startDate".toList)
  else
  match parseKindFilter q.mediaType with
  | none => .error ("mediaType must be one of [photo, video, all]".toList)
  | some mt =>
  match intRange q.limit 1 1000 100 ("limit must be between 1 and 1000".toList) with
  | .error msg => .error msg
  | .ok lim =>
  match intRange q.offset 0 (2 ^ 53) 0 ("offset must be greater than or equal to 0".toList) with
  | .error msg => .error msg
  | .ok off =>
  match intRange q.minConfidence 0 10000 0 ("minConfidence must be between 0 and 1".toList) with
  | .error msg => .error msg
  | .ok mc =>
    .ok
      { startDate := s
        endDate := e
        mediaType := mt
        limit := lim.toNat
        offset := off.toNat
        minConfidence := mc
        platform := q.platform
        verified := q.verified }

/-- The full `/api/deepfakes` handler: validate, and only on success touch
the database; a validation failure is the HTTP 400 error branch. -/
def deepfakesHandler (q : RawListQuery) (rows : List MediaRow) :
    Except (List Char) DeepfakesResponse :=
  match dateRangeValidate q with
  | .error msg => .error msg
  | .ok p => .ok (deepfakesResponse p rows)

/-- Each grouped day's count is the size of a nonempty group, hence at
least 1. -/
theorem dailyCounts_pos (rows : List MediaRow) (now : Int) (d : Int) (n : Nat)
    (h : (d, n) ∈ dailyCounts rows now) : 1 ≤ n := by
  unfold dailyCounts at h
  obtain ⟨day, hday, heq⟩ := List.mem_map.1 h
  obtain ⟨rfl, rfl⟩ : day = d ∧
      (List.filter (fun r => decide (now - 7 * msPerDay ≤ r.detected_date)) rows).countP
        (fun r => decide (dayOf r.detected_date = day)) = n := by
    exact ⟨congrArg Prod.fst heq, congrArg Prod.snd heq⟩
  rw [List.mem_insertionSort] at hday
  rw [List.mem_dedup] at hday
  obtain ⟨r, hr, hrd⟩ := List.mem_map.1 hday
  have : 0 < (List.filter (fun r => decide (now - 7 * msPerDay ≤ r.detected_date)) rows).countP
      (fun r => decide (dayOf r.detected_date = day)) := by
    rw [List.countP_pos_iff]
    exact ⟨r, hr, by simp [hrd]⟩
  omega

/-- Pointwise agreement of the data filter and the count filter of
`/api/deepfakes`: the two conditional predicate blocks add the same
clauses. -/
theorem deepfakesFilter_eq_count (p : ListParams) (r : MediaRow) :
    deepfakesFilter p r = deepfakesCountFilter p r := rfl

/-- C2: for every valid list-detections request the data query and the
count query apply the identical predicate set, `pagination.total` is the
number of rows matching the filters without `LIMIT`/`OFFSET`, and
`hasMore` is `offset + limit < total`. -/
theorem deepfakes_pagination_consistent (p : ListParams) (rows : List MediaRow) :
    (∀ r, deepfakesFilter p r = deepfakesCountFilter p r) ∧
    (deepfakesResponse p rows).pagination.total =
      (rows.filter (deepfakesFilter p)).length ∧
    ((deepfakesResponse p rows).pagination.hasMore = true ↔
      p.offset + p.limit < (rows.filter (deepfakesFilter p)).length) := by
  have ht : (rows.filter (deepfakesCountFilter p)).length =
      (rows.filter (deepfakesFilter p)).length := by
    rw [List.filter_congr (fun a _ => deepfakesFilter_eq_count p a)]
  refine ⟨fun r => deepfakesFilter_eq_count p r, ?_, ?_⟩
  · simpa [deepfakesResponse] using ht
  · simp [deepfakesResponse, ht]

/-- C10 counterexample: with the default `minConfidence = 0`, a record
whose `confidence_score` is `NULL` is excluded by the `/api/deepfakes`
endpoint (its unconditional `confidence_score >= 0` clause is not-true on
`NULL`) but included by `DatabaseService.getDeepfakeMedia` (which omits
the clause when `minConfidence` is `0`): the two builders return different
result sets over the same data. -/
theorem deepfakes_vs_db_cex :
    (deepfakesResponse ⟨0, 10, .all, 100, 0, 0, none, none⟩
        [⟨1, .photo, none, none, none, none, none, 5, false⟩]).data = [] ∧
    getDeepfakeMedia (toDbFilters ⟨0, 10, .all, 100, 0, 0, none, none⟩)
        [⟨1, .photo, none, none, none, none, none, 5, false⟩] =
      [⟨1, .photo, none, none, none, none, none, 5, false⟩] := by decide

/-- Pointwise agreement of the endpoint filter and the
`getDeepfakeMedia` filter on rows with non-`NULL`, non-negative
confidence scores (or unconditionally when `minConfidence > 0`). -/
theorem deepfakes_db_filters_agree (p : ListParams) (r : MediaRow)
    (h : 0 < p.minConfidence ∨
      (0 ≤ p.minConfidence ∧ confNonNeg r.confidence_score = true)) :
    deepfakesFilter p r = getDeepfakeMediaFilter (toDbFilters p) r := by
  by_cases hlt : 0 < p.minConfidence
  · simp [deepfakesFilter, getDeepfakeMediaFilter, toDbFilters, hlt]
  · obtain ⟨hge, hconf⟩ := h.resolve_left hlt
    have hz : p.minConfidence = 0 := le_antisymm (not_lt.1 hlt) hge
    cases hcs : r.confidence_score with
    | none => rw [hcs] at hconf; simp [confNonNeg] at hconf
    | some c =>
      rw [hcs] at hconf
      have hc : (0 : Int) ≤ c := by simpa [confNonNeg] using hconf
      simp [deepfakesFilter, getDeepfakeMediaFilter, toDbFilters, hlt, hz,
        hcs, confGeB, hc]

/-- C10 amended: the `/api/deepfakes` handler and
`DatabaseService.getDeepfakeMedia` return the same result set for every
filter combination over records whose `confidence_score` is non-`NULL` and
non-negative (the data-model invariant); when `minConfidence > 0` they
agree over all records, `NULL` scores included.  They differ exactly on
`NULL`-confidence records when `minConfidence = 0`: the endpoint excludes
them, `getDeepfakeMedia` includes them. -/
theorem deepfakes_vs_db_agree (p : ListParams) (rows : List MediaRow)
    (hmc : 0 ≤ p.minConfidence)
    (hrows : ∀ r ∈ rows, confNonNeg r.confidence_score = true) :
    (deepfakesResponse p rows).data = getDeepfakeMedia (toDbFilters p) rows ∧
    (0 < p.minConfidence →
      ∀ rows' : List MediaRow,
        (deepfakesResponse p rows').data =
          getDeepfakeMedia (toDbFilters p) rows') := by
  constructor
  · have hfilt : rows.filter (deepfakesFilter p) =
        rows.filter (getDeepfakeMediaFilter (toDbFilters p)) :=
      List.filter_congr fun r hr =>
        deepfakes_db_filters_agree p r (Or.inr ⟨hmc, hrows r hr⟩)
    simp [deepfakesResponse, getDeepfakeMedia, toDbFilters, hfilt]
  · intro hpos rows'
    have hfilt : rows'.filter (deepfakesFilter p) =
        rows'.filter (getDeepfakeMediaFilter (toDbFilters p)) :=
      List.filter_congr fun r _ =>
        deepfakes_db_filters_agree p r (Or.inl hpos)
    simp [deepfakesResponse, getDeepfakeMedia, toDbFilters, hfilt]

/-- C10 witness: the amended equivalence applied to a concrete request and
a concrete row with a non-`NULL` score. -/
theorem deepfakes_vs_db_witness :
    (deepfakesResponse ⟨0, 10, .all, 100, 0, 0, none, none⟩
        [⟨1, .photo, none, none, none, some 9500, none, 5, false⟩]).data =
      getDeepfakeMedia (toDbFilters ⟨0, 10, .all, 100, 0, 0, none, none⟩)
        [⟨1, .photo, none, none, none, some 9500, none, 5, false⟩] :=
  (deepfakes_vs_db_agree _ _ (by decide) (by decide)).1

/-- Unfolding of `checkSpike` on a window with at least one history day. -/
theorem checkSpike_cons (today x : Nat) (t : List Nat) :
    checkSpike (today :: x :: t) =
      if 3 * (x :: t).sum < 2 * (x :: t).length * today then
        (true,
          some
            { todayCount := today
              avgCount :=
                (2 * (x :: t).sum + (x :: t).length) / (2 * (x :: t).length)
              percentIncrease :=
                if (x :: t).sum = 0 then none
                else
                  some ((200 * ((x :: t).length * today - (x :: t).sum) +
                    (x :: t).sum) / (2 * (x :: t).sum)) })
      else (false, none) := rfl

/-- C1 counterexample: on history counts summing to 0 (average 0) with a
positive today-count, the evaluator declares a spike — `spikeDetected` is
`true`, `spikeInfo` is non-`null`, and its `percentIncrease` is the
non-finite JS quotient (`none`, serialised as JSON `null`) — contradicting
the claimed no-spike guard. -/
theorem spike_zero_avg_cex :
    ([0, 0] : List Nat).sum = 0 ∧
    (checkSpike [5, 0, 0]).1 = true ∧
    (checkSpike [5, 0, 0]).2 = some ⟨5, 0, none⟩ := by decide

/-- C1 amended: when the trailing history averages exactly 0, the
evaluator reports a spike precisely when today's count is positive, and in
that case `spikeInfo.percentIncrease` is the non-finite JS quotient
(serialised as `null`); only a zero today-count yields
`spikeDetected = false, spikeInfo = null`.  No error is produced.  In the
endpoint itself this branch is unreachable: every per-day count produced
by the grouping query is at least 1, so a zero average never coexists
with history. -/
theorem spike_zero_avg :
    (∀ (today : Nat) (rest : List Nat), rest ≠ [] → rest.sum = 0 →
      (checkSpike (today :: rest)).1 = decide (0 < today) ∧
      (checkSpike (today :: rest)).2 =
        (if 0 < today then some ⟨today, 0, none⟩ else none)) ∧
    (∀ (rows : List MediaRow) (now d : Int) (n : Nat),
      (d, n) ∈ dailyCounts rows now → 1 ≤ n) := by
  constructor
  · intro today rest hne hsum
    obtain ⟨x, t, rfl⟩ : ∃ x t, rest = x :: t := by
      cases rest with
      | nil => exact absurd rfl hne
      | cons x t => exact ⟨x, t, rfl⟩
    have hlen : 0 < (x :: t).length := by simp
    by_cases h0 : 0 < today
    · have hc : 3 * (x :: t).sum < 2 * (x :: t).length * today := by
        rw [hsum, Nat.mul_zero]
        exact Nat.mul_pos (Nat.mul_pos (by norm_num) hlen) h0
      have havg : (2 * (x :: t).sum + (x :: t).length) /
          (2 * (x :: t).length) = 0 := by
        rw [hsum]
        exact Nat.div_eq_of_lt (by omega)
      rw [checkSpike_cons, if_pos hc]
      refine ⟨by simp [h0], ?_⟩
      rw [if_pos h0]
      simp [hsum]
      exact Nat.div_eq_of_lt (by omega)
    · have h0' : today = 0 := by omega
      subst h0'
      have hc : ¬ 3 * (x :: t).sum < 2 * (x :: t).length * 0 := by simp
      rw [checkSpike_cons, if_neg hc]
      simp
  · exact fun rows now d n h => dailyCounts_pos rows now d n h

/-- C1 witness: the amended statement applied at the concrete zero-average
history `[0, 0]` with today-count 5. -/
theorem spike_zero_avg_witness :
    (checkSpike [5, 0, 0]).1 = decide (0 < (5 : Nat)) ∧
    (checkSpike [5, 0, 0]).2 =
      (if 0 < (5 : Nat) then some ⟨5, 0, none⟩ else none) :=
  spike_zero_avg.1 5 [0, 0] (by decide) (by decide)

/-- C4: with at least 2 days of history the evaluator declares a spike
exactly when today's count exceeds 1.5 times the arithmetic mean of the
remaining days' counts; on the spec's concrete window
`[today=300, six history days of 100]` it reports
`spikeDetected = true, avgCount = 100, percentIncrease = 200`. -/
theorem spike_threshold :
    (∀ (today : Nat) (rest : List Nat), rest ≠ [] →
      ((checkSpike (today :: rest)).1 = true ↔
        ((rest.sum : ℚ) / (rest.length : ℚ)) * (3 / 2) < (today : ℚ))) ∧
    checkSpike [300, 100, 100, 100, 100, 100, 100] =
      (true, some ⟨300, 100, some 200⟩) := by
  have key : ∀ S m T : ℕ, 0 < m →
      ((3 * S < 2 * m * T) ↔ ((S : ℚ) / (m : ℚ)) * (3 / 2) < (T : ℚ)) := by
    intro S m T hm
    have hmQ : (0 : ℚ) < (m : ℚ) := by exact_mod_cast hm
    rw [div_mul_eq_mul_div, div_lt_iff₀ hmQ]
    constructor
    · intro h
      have h' : ((3 * S : ℕ) : ℚ) < ((2 * m * T : ℕ) : ℚ) := by exact_mod_cast h
      push_cast at h'
      nlinarith [h']
    · intro h
      have h' : ((3 * S : ℕ) : ℚ) < ((2 * m * T : ℕ) : ℚ) := by
        push_cast
        nlinarith [h]
      exact_mod_cast h'
  constructor
  · intro today rest hne
    obtain ⟨x, t, rfl⟩ : ∃ x t, rest = x :: t := by
      cases rest with
      | nil => exact absurd rfl hne
      | cons x t => exact ⟨x, t, rfl⟩
    have hm : 0 < (x :: t).length := by simp
    have hbool : ((checkSpike (today :: x :: t)).1 = true ↔
        3 * (x :: t).sum < 2 * (x :: t).length * today) := by
      rw [checkSpike_cons]
      by_cases hc : 3 * (x :: t).sum < 2 * (x :: t).length * today
      · rw [if_pos hc]; simpa using hc
      · rw [if_neg hc]; simpa using hc
    exact hbool.trans (key (x :: t).sum (x :: t).length today hm)
  · decide

/-- C4 witness: the threshold equivalence applied at the concrete window
`[5, 2]` (the spike fires: `(2/1) * 1.5 < 5`), alongside the spec's
concrete seven-day window. -/
theorem spike_threshold_witness :
    checkSpike [300, 100, 100, 100, 100, 100, 100] =
      (true, some ⟨300, 100, some 200⟩) ∧
    ((([2] : List Nat).sum : ℚ) / (([2] : List Nat).length : ℚ)) * (3 / 2) <
      ((5 : Nat) : ℚ) :=
  ⟨spike_threshold.2, (spike_threshold.1 5 [2] (by decide)).mp (by decide)⟩

/-- C5: every `/api/alerts/check` call answers the `catch` branch's
HTTP 500 `Internal server error` — in particular one finding fewer than 2
days of history — because the daily-stats statement `INTERVAL 7 DAYS`
cannot parse; the claimed normal short-history response
`spikeDetected = false, spikeInfo = null` with `alerts` and `checkTime` is
never returned. -/
theorem alerts_check_500 (p : AlertsParams) (rows : List MediaRow) (now : Int) :
    alertsCheckHandler p rows now = .error ("Internal server error".toList) :=
  rfl

/-- Supporting lemma for the C5 code-bug verdict: the claim is right about
the evaluator's logic.  Had the daily-stats statement parsed, fewer than 2
grouped days of history would yield `spikeDetected = false` and
`spikeInfo = null` as a normal response, still carrying the alert list and
`checkTime` — so the spec describes the intent and the unparseable
interval unit is the slip. -/
theorem alerts_check_short_history (p : AlertsParams) (rows : List MediaRow)
    (now : Int) (h : (dailyCounts rows now).length ≤ 1) :
    (alertsCheck p rows now).spikeDetected = false ∧
    (alertsCheck p rows now).spikeInfo = none ∧
    (alertsCheck p rows now).alerts = alertsList p rows now ∧
    (alertsCheck p rows now).checkTime = now := by
  have hspike : checkSpike ((dailyCounts rows now).map Prod.snd) =
      (false, none) := by
    have hl : ((dailyCounts rows now).map Prod.snd).length ≤ 1 := by simpa using h
    cases hcc : (dailyCounts rows now).map Prod.snd with
    | nil => simp [checkSpike]
    | cons a tl =>
      cases tl with
      | nil => simp [checkSpike]
      | cons b tl2 => rw [hcc] at hl; simp at hl
  exact ⟨by simp [alertsCheck, hspike], by simp [alertsCheck, hspike], rfl, rfl⟩

/-- The short-history lemma evaluated on an empty table. -/
theorem alerts_check_short_history_witness :
    (alertsCheck ⟨9000, none, none, none⟩ [] 0).spikeDetected = false ∧
    (alertsCheck ⟨9000, none, none, none⟩ [] 0).spikeInfo = none ∧
    (alertsCheck ⟨9000, none, none, none⟩ [] 0).alerts =
      alertsList ⟨9000, none, none, none⟩ [] 0 ∧
    (alertsCheck ⟨9000, none, none, none⟩ [] 0).checkTime = 0 :=
  alerts_check_short_history _ _ _ (by decide)

/-- C3: every detection returned by `/api/alerts/check` passes the alert
filter: its confidence score is non-`NULL` and at least `minConfidence`;
with `lastCheckTime = T` supplied its `detected_date` is strictly greater
than `T`; without `lastCheckTime` its `detected_date` is strictly within
the trailing 24 hours. -/
theorem alerts_check_watermark (p : AlertsParams) (rows : List MediaRow)
    (now : Int) (r : MediaRow) (hr : r ∈ (alertsCheck p rows now).alerts) :
    (∃ c, r.confidence_score = some c ∧ p.minConfidence ≤ c) ∧
    (∀ t, p.lastCheckTime = some t → t < r.detected_date) ∧
    (p.lastCheckTime = none → now - msPerDay < r.detected_date) := by
  have hr2 : r ∈ rows.filter (alertsFilter p now) := by
    have h1 : r ∈ List.insertionSort dateOrd (rows.filter (alertsFilter p now)) :=
      List.take_subset 50 _ (by simpa [alertsCheck, alertsList] using hr)
    rwa [List.mem_insertionSort] at h1
  rw [List.mem_filter] at hr2
  have hf := hr2.2
  unfold alertsFilter at hf
  simp only [Bool.and_eq_true] at hf
  obtain ⟨⟨⟨hconf, hdate⟩, -⟩, -⟩ := hf
  refine ⟨?_, ?_, ?_⟩
  · cases hcs : r.confidence_score with
    | none => rw [hcs] at hconf; simp [confGeB] at hconf
    | some c =>
      rw [hcs] at hconf
      exact ⟨c, rfl, by simpa [confGeB] using hconf⟩
  · intro t ht
    rw [ht] at hdate
    simpa using hdate
  · intro ht
    rw [ht] at hdate
    simpa using hdate

/-- C3 witness: the filter properties extracted from a concrete check
returning one alert. -/
theorem alerts_check_watermark_witness :
    (∃ c, (⟨1, .photo, none, none, none, some 9500, none, 200, false⟩ :
        MediaRow).confidence_score = some c ∧
      (⟨9000, some 100, none, none⟩ : AlertsParams).minConfidence ≤ c) ∧
    (∀ t, (⟨9000, some 100, none, none⟩ : AlertsParams).lastCheckTime = some t →
      t < (⟨1, .photo, none, none, none, some 9500, none, 200, false⟩ :
        MediaRow).detected_date) ∧
    ((⟨9000, some 100, none, none⟩ : AlertsParams).lastCheckTime = none →
      (0 : Int) - msPerDay <
        (⟨1, .photo, none, none, none, some 9500, none, 200, false⟩ :
          MediaRow).detected_date) :=
  alerts_check_watermark ⟨9000, some 100, none, none⟩
    [⟨1, .photo, none, none, none, some 9500, none, 200, false⟩] 0
    ⟨1, .photo, none, none, none, some 9500, none, 200, false⟩ (by decide)

/-- Strict comparison of nullable confidence scores is trichotomous. -/
theorem confLtB_total (a b : Option Int) :
    confLtB a b = true ∨ confLtB b a = true ∨ a = b := by
  cases a <;> cases b <;> simp [confLtB] <;> omega

/-- Strict comparison of nullable confidence scores is transitive. -/
theorem confLtB_trans {a b c : Option Int} (hab : confLtB a b = true)
    (hbc : confLtB b c = true) : confLtB a c = true := by
  cases a <;> cases b <;> cases c <;> simp_all [confLtB] <;> omega

instance : IsTotal MediaRow confOrd where
  total a b := by
    rcases confLtB_total b.confidence_score a.confidence_score with h | h | h
    · exact Or.inl (Or.inl h)
    · exact Or.inr (Or.inl h)
    · rcases le_total b.detected_date a.detected_date with hd | hd
      · exact Or.inl (Or.inr ⟨h, hd⟩)
      · exact Or.inr (Or.inr ⟨h.symm, hd⟩)

instance : IsTrans MediaRow confOrd where
  trans a b c hab hbc := by
    rcases hab with h1 | ⟨h1, hd1⟩ <;> rcases hbc with h2 | ⟨h2, hd2⟩
    · exact Or.inl (confLtB_trans h2 h1)
    · exact Or.inl (h2 ▸ h1)
    · exact Or.inl (h1 ▸ h2)
    · exact Or.inr ⟨h2.trans h1, le_trans hd2 hd1⟩

/-- `ROW_NUMBER()` values along a list are consecutive from the start. -/
theorem rankWith_map_rank (l : List MediaRow) (n : Nat) :
    (rankWith l n).map RankedRow.rank = List.range' n l.length := by
  induction l generalizing n with
  | nil => rfl
  | cons r rest ih =>
    show RankedRow.rank ⟨r, n⟩ :: (rankWith rest (n + 1)).map RankedRow.rank =
      n :: List.range' (n + 1) rest.length
    rw [ih]

/-- Taking a prefix commutes with `ROW_NUMBER()` assignment. -/
theorem rankWith_take (l : List MediaRow) (n k : Nat) :
    (rankWith l n).take k = rankWith (l.take k) n := by
  induction l generalizing n k with
  | nil => simp [rankWith]
  | cons r rest ih =>
    cases k with
    | zero => simp [rankWith]
    | succ k => simp [rankWith, ih]

/-- `ROW_NUMBER()` assignment preserves length. -/
theorem rankWith_length (l : List MediaRow) (n : Nat) :
    (rankWith l n).length = l.length := by
  induction l generalizing n with
  | nil => rfl
  | cons r rest ih => simp [rankWith, ih]

/-- A ranked row's underlying row belongs to the ranked list's source. -/
theorem rankWith_mem_row {x : RankedRow} {l : List MediaRow} {n : Nat}
    (h : x ∈ rankWith l n) : x.row ∈ l := by
  induction l generalizing n with
  | nil => simp [rankWith] at h
  | cons r rest ih =>
    simp only [rankWith, List.mem_cons] at h
    rcases h with h | h
    · rw [h]
      exact List.mem_cons_self r rest
    · exact List.mem_cons_of_mem r (ih h)

/-- `ROW_NUMBER()` assignment preserves sortedness of the underlying
rows. -/
theorem rankWith_pairwise {l : List MediaRow} {n : Nat}
    (h : List.Pairwise confOrd l) :
    List.Pairwise (fun a b => confOrd a.row b.row) (rankWith l n) := by
  induction l generalizing n with
  | nil => exact List.Pairwise.nil
  | cons r rest ih =>
    rcases List.pairwise_cons.1 h with ⟨hr, hrest⟩
    refine List.pairwise_cons.2 ⟨?_, ih hrest⟩
    intro b hb
    exact hr b.row (rankWith_mem_row hb)

/-- C7: the `/api/rankings` response is ordered by `confidence_score`
descending with ties broken by `detected_date` descending, and the `rank`
values carried by the rows are 1-based and contiguous: row `i` (0-based)
carries rank `i + 1`. -/
theorem rankings_sorted_contiguous (p : RankParams) (rows : List MediaRow) :
    (rankingsList p rows).map RankedRow.rank =
      List.range' 1 (rankingsList p rows).length ∧
    List.Pairwise (fun a b => confOrd a.row b.row) (rankingsList p rows) := by
  unfold rankingsList
  constructor
  · rw [rankWith_take, rankWith_map_rank, rankWith_length]
  · exact List.Pairwise.sublist (List.take_sublist _ _)
      (rankWith_pairwise (List.sorted_insertionSort confOrd _))

/-- C6 counterexample: `/api/search` reports `total: rows.length` over the
`LIMIT`-capped page.  With two matching records and `limit = 1` the
response's `total` is 1 while the full filter predicate matches 2 records,
so `total` is not the unlimited match count required by the pagination
contract. -/
theorem search_total_cex :
    (searchResponse ⟨"a".toList, none, none, .all, 0, none, none, 1⟩
        [⟨1, .photo, some ("a".toList), none, none, some 5, none, 10, false⟩,
          ⟨2, .photo, some ("a".toList), none, none, some 4, none, 9, false⟩]).total = 1 ∧
    (([⟨1, .photo, some ("a".toList), none, none, some 5, none, 10, false⟩,
        ⟨2, .photo, some ("a".toList), none, none, some 4, none, 9, false⟩] :
          List MediaRow).filter
        (searchFilter ⟨"a".toList, none, none, .all, 0, none, none, 1⟩)).length = 2 := by
  decide

/-- C6 amended: the `total` field of `/api/search` equals the size of the
returned (`LIMIT`-capped) page — `min limit (full match count)` — not the
number of records matching the filter predicate without the limit. -/
theorem search_total_is_page (p : SearchParams) (rows : List MediaRow) :
    (searchResponse p rows).total = (searchResponse p rows).results.length ∧
    (searchResponse p rows).total =
      min p.limit (rows.filter (searchFilter p)).length := by
  refine ⟨rfl, ?_⟩
  show (searchResults p rows).length = _
  unfold searchResults
  rw [List.length_take, (List.perm_insertionSort confOrd _).length_eq]

/-- C8: whenever both dates are supplied with `endDate < startDate`, the
`dateRangeSchema` validation fails, the handler answers with the
validation-error branch (HTTP 400), and the outcome is independent of the
database contents — no query is executed, regardless of every other
parameter. -/
theorem validation_rejects_reversed_dates (q : RawListQuery) (s e : Int)
    (hs : q.startDate = some s) (he : q.endDate = some e) (hlt : e < s)
    (rows : List MediaRow) :
    (∃ msg, deepfakesHandler q rows = .error msg) ∧
    (∀ rows' : List MediaRow,
      deepfakesHandler q rows = deepfakesHandler q rows') := by
  have hv : dateRangeValidate q =
      .error ("endDate must be greater than or equal to ref:startDate".toList) := by
    simp only [dateRangeValidate, hs, he]
    rw [if_pos hlt]
  refine ⟨⟨("endDate must be greater than or equal to ref:startDate".toList), ?_⟩,
    fun rows' => ?_⟩ <;> simp [deepfakesHandler, hv]

/-- C8 witness: a concrete request with `startDate = 5, endDate = 3` is
rejected independently of the data. -/
theorem validation_rejects_reversed_dates_witness :
    (∃ msg, deepfakesHandler ⟨some 5, some 3, none, none, none, none, none, none⟩
      [] = .error msg) ∧
    (∀ rows' : List MediaRow,
      deepfakesHandler ⟨some 5, some 3, none, none, none, none, none, none⟩ [] =
        deepfakesHandler ⟨some 5, some 3, none, none, none, none, none, none⟩
          rows') :=
  validation_rejects_reversed_dates _ 5 3 rfl rfl (by decide) []

/-- Collapsing doubled quotes undoes quote doubling. -/
theorem unescQuotes_escQuotes (s : List Char) :
    unescQuotes (escQuotes s) = s := by
  induction s with
  | nil => rfl
  | cons c rest ih =>
    by_cases hc : c = '"'
    · subst hc
      rw [escQuotes, if_pos rfl]
      rw [show unescQuotes ('"' :: '"' :: escQuotes rest) =
          '"' :: unescQuotes (escQuotes rest) from by
        rw [unescQuotes, if_pos ⟨rfl, rfl⟩], ih]
    · rw [escQuotes, if_neg hc]
      cases hr : escQuotes rest with
      | nil =>
        have : rest = [] := by
          have := ih
          rw [hr] at this
          simpa [unescQuotes] using this.symm
        subst this
        rfl
      | cons d tl =>
        rw [show unescQuotes (c :: d :: tl) = c :: unescQuotes (d :: tl) from by
          rw [unescQuotes, if_neg (by exact fun hx => hc hx.1)]]
        rw [← hr, ih]

/-- C9: a field value containing a comma, double quote or newline is
emitted by `convertToCSV` wrapped in double quotes with embedded quotes
doubled, and re-parsing the emitted field recovers the original string
exactly. -/
theorem csv_field_roundtrip (s : List Char) (h : needsQuoting s = true) :
    csvField (some s) = '"' :: (escQuotes s ++ ['"']) ∧
    parseCSVField (csvField (some s)) = s := by
  have hq : csvField (some s) = '"' :: (escQuotes s ++ ['"']) := by
    simp [csvField, h]
  refine ⟨hq, ?_⟩
  rw [hq]
  have hsplit : '"' :: (escQuotes s ++ ['"']) = ('"' :: escQuotes s) ++ ['"'] := by
    simp
  unfold parseCSVField
  rw [if_pos ?cond]
  case cond =>
    refine ⟨by simp, by simp, ?_⟩
    rw [hsplit]
    exact List.getLast?_concat _
  show unescQuotes (List.dropLast (List.drop 1 ('"' :: (escQuotes s ++ ['"'])))) = s
  rw [List.drop_one, List.tail_cons, List.dropLast_concat]
  exact unescQuotes_escQuotes s

/-- C9 witness: the spec's concrete title containing a comma round-trips
unchanged. -/
theorem csv_field_roundtrip_witness :
    csvField (some ("Breaking, fake".toList)) =
      '"' :: (escQuotes ("Breaking, fake".toList) ++ ['"']) ∧
    parseCSVField (csvField (some ("Breaking, fake".toList))) =
      "Breaking, fake".toList :=
  csv_field_roundtrip _ (by decide)
